import Mathlib

/-!
Shallow embedding of the user-account authentication API in
`src/account/api/base/views.py`, together with the parts of the data model
the handlers rely on. Each HTTP handler becomes a pure function from a
database state and a request to a `HandlerResult` holding the response, the
new database state and the list of external side effects (emails sent).
Parts of the repository that are referenced by the views but whose files
are not present (serializers, the reset-token generator, the email and
token utilities, the error-code table) are modelled from the spec; each
such definition carries a doc comment starting with `Modelled from the
spec:`.
-/

namespace UsersApi

/-- A stored user record: `account.models.User` as the views use it
(identity key `email`, `is_active`, `verified_email`, `last_login`,
password hash). The password hash is modelled as the plain password
string; timestamps are naturals, with `0` standing for the initial
never-logged-in value. -/
structure User where
  id : Nat
  email : String
  password : String
  is_active : Bool
  verified_email : Bool
  last_login : Nat
deriving DecidableEq, Repr

/-- A stored profile record: `account.models.Profile`, one-to-one with
`User` via `userId`, holding the name fields used by `get_fullname`. -/
structure Profile where
  userId : Nat
  first_name : String
  last_name : String
deriving DecidableEq, Repr

/-- `Profile.get_fullname` as the reset email context uses it. -/
def Profile.get_fullname (p : Profile) : String :=
  p.first_name ++ " " ++ p.last_name

/-- The database state shared by all handlers, plus the current time
(`timezone.now()` is read from here, so one request sees one instant). -/
structure DB where
  users : List User
  profiles : List Profile
  time : Nat
deriving DecidableEq, Repr

/-- `User.objects.get(email=...)`, returning `none` for `DoesNotExist`. -/
def getUserByEmail (users : List User) (email : String) : Option User :=
  users.find? (fun u => u.email == email)

/-- `User.objects.get(pk=...)` by id, returning `none` for `DoesNotExist`. -/
def getUserById (users : List User) (i : Nat) : Option User :=
  users.find? (fun u => u.id == i)

/-- `user.save()`: persist a mutated user record back into the table,
replacing the record(s) with the same id. -/
def updateUser (users : List User) (u : User) : List User :=
  users.map (fun v => if v.id == u.id then u else v)

/-- `profile.save()`: persist a mutated profile back into the table. -/
def updateProfile (profiles : List Profile) (p : Profile) : List Profile :=
  profiles.map (fun q => if q.userId == p.userId then p else q)

/-- `Profile.objects.get(user=...)` lookup, `none` for missing. -/
def getProfileByUser (profiles : List Profile) (uid : Nat) : Option Profile :=
  profiles.find? (fun p => p.userId == uid)

/-- Modelled from the spec: the JWT signature over a token body
(`rest_framework_simplejwt` signing is not in src/). Spec 9 says to model
tokens as explicit signed structs verified by a pure function; the
signature is modelled as a perfect (injective) MAC, i.e. a copy of the
signed fields. -/
structure TokenSig where
  uid : Nat
  exp : Nat
  purpose : String
deriving DecidableEq, Repr

/-- Modelled from the spec: a JWT access or refresh token as an explicit
signed struct (user id, expiry, purpose tag, signature); spec 9. -/
structure SignedToken where
  userId : Nat
  expiry : Nat
  purpose : String
  sig : TokenSig
deriving DecidableEq, Repr

/-- Modelled from the spec: signing a token body with the shared secret. -/
def signToken (uid exp : Nat) (purpose : String) : TokenSig :=
  ⟨uid, exp, purpose⟩

/-- Modelled from the spec: a token is valid when its signature matches
its body, giving the pure verification function of spec 9. -/
def tokenSigValid (t : SignedToken) : Bool :=
  t.sig == signToken t.userId t.expiry t.purpose

/-- Modelled from the spec: access-token lifetime (short-lived). -/
def ACCESS_TOKEN_LIFETIME : Nat := 300

/-- Modelled from the spec: refresh-token lifetime (long-lived). -/
def REFRESH_TOKEN_LIFETIME : Nat := 86400

/-- Modelled from the spec: mint a fresh access token for a user id. -/
def mkAccessToken (uid now : Nat) : SignedToken :=
  ⟨uid, now + ACCESS_TOKEN_LIFETIME, "access",
    signToken uid (now + ACCESS_TOKEN_LIFETIME) "access"⟩

/-- Modelled from the spec: mint a fresh refresh token for a user id. -/
def mkRefreshToken (uid now : Nat) : SignedToken :=
  ⟨uid, now + REFRESH_TOKEN_LIFETIME, "refresh",
    signToken uid (now + REFRESH_TOKEN_LIFETIME) "refresh"⟩

/-- The access+refresh pair returned on login. -/
structure TokenPair where
  refresh : SignedToken
  access : SignedToken
deriving DecidableEq, Repr

/-- Modelled from the spec: `utils.base.general.get_tokens_for_user`
(file not in src/): issues an access+refresh token pair derived from the
user identity and expiry. -/
def get_tokens_for_user (u : User) (now : Nat) : TokenPair :=
  ⟨mkRefreshToken u.id now, mkAccessToken u.id now⟩

/-- Modelled from the spec: the signing input of a password-reset token
(Django-style generator, `.tokens.password_reset_generator` not in src/).
Spec 3 and the invariant say the input includes the user identity, the
password hash and `last_login`; the HMAC is modelled as a perfect
(injective) hash, i.e. a copy of the hashed fields. -/
structure ResetSig where
  uid : Nat
  password : String
  last_login : Nat
  timestamp : Nat
deriving DecidableEq, Repr

/-- A password-reset token: issue timestamp plus signature. -/
structure ResetToken where
  timestamp : Nat
  sig : ResetSig
deriving DecidableEq, Repr

/-- Modelled from the spec: the reset-token validity window. -/
def RESET_TOKEN_TIMEOUT : Nat := 3600

/-- Modelled from the spec: `password_reset_generator.make_token(user)`,
signing the user id, password hash, last-login and the issue time. -/
def make_token (u : User) (now : Nat) : ResetToken :=
  ⟨now, ⟨u.id, u.password, u.last_login, now⟩⟩

/-- Modelled from the spec: `password_reset_generator.check_token`: the
signature is recomputed from the current user state and compared, and the
token must be inside its validity window. -/
def check_token (u : User) (t : ResetToken) (now : Nat) : Bool :=
  (t.sig == (⟨u.id, u.password, u.last_login, t.timestamp⟩ : ResetSig))
    && now ≤ t.timestamp + RESET_TOKEN_TIMEOUT

/-- Modelled from the spec: `urlsafe_base64_encode(force_bytes(user.pk))`,
an injective printable encoding of the primary key. -/
def urlsafe_base64_encode (pk : Nat) : String :=
  "uid-" ++ toString pk

/-- The serialized user payload produced by `serializers.UserSerializer`.
Modelled from the spec: the serializer file is not in src/; the payload
carries the user fields the spec exposes. -/
structure UserPayload where
  id : Nat
  email : String
  verified_email : Bool
  last_login : Nat
deriving DecidableEq, Repr

/-- Modelled from the spec: `UserSerializer(user).data`. -/
def userSerializerData (u : User) : UserPayload :=
  ⟨u.id, u.email, u.verified_email, u.last_login⟩

/-- The serialized profile payload of `serializers.ProfileSerializer`. -/
structure ProfilePayload where
  userId : Nat
  first_name : String
  last_name : String
deriving DecidableEq, Repr

/-- Modelled from the spec: `ProfileSerializer(profile).data`. -/
def profileSerializerData (p : Profile) : ProfilePayload :=
  ⟨p.userId, p.first_name, p.last_name⟩

/-- A response body, one constructor per body shape the views build. -/
inductive Body
  | loginBody (tokens : TokenPair) (user : UserPayload)
  | userBody (user : UserPayload)
  | profileBody (p : ProfilePayload)
  | refreshBody (access : SignedToken)
  | errorBody (detail : String) (code : String)
  | detailBody (detail : String)
  | messageBody (message : String)
  | validationErrorBody
deriving DecidableEq, Repr

/-- An HTTP response: status code and body. -/
structure Response where
  status : Nat
  body : Body
deriving DecidableEq, Repr

/-- An external side effect a handler performs (email dispatch). -/
inductive Effect
  | verificationEmail (userId : Nat)
  | resetPasswordEmail (email : String) (user_name : String)
      (uidb64 : String) (token : ResetToken)
deriving DecidableEq, Repr

/-- What one handled request produces: the response, the database after
the request, and the side effects in order. -/
structure HandlerResult where
  resp : Response
  db : DB
  effects : List Effect
deriving DecidableEq, Repr

/-- A serializer validation failure surfaced by the framework as a
structured 400 (spec 7), leaving the database untouched. -/
def validationErrorResult (db : DB) : HandlerResult :=
  ⟨⟨400, Body.validationErrorBody⟩, db, []⟩

/-- The coded error table `utils.base.errors.ApiResponse`. -/
structure ApiCode where
  detail : String
  code : String
deriving DecidableEq, Repr

/-- Modelled from the spec: `ApiResponse.EMAIL_NOT_VERIFIED` (file not in
src/): the coded domain error for an unverified email. -/
def ApiResponse.EMAIL_NOT_VERIFIED : ApiCode :=
  ⟨"Email is not verified", "EMAIL_NOT_VERIFIED"⟩

/-- Modelled from the spec: `ApiResponse.ACCOUNT_NOT_ACTIVE` (file not in
src/): the coded domain error for an inactive account. -/
def ApiResponse.ACCOUNT_NOT_ACTIVE : ApiCode :=
  ⟨"Account is not active", "ACCOUNT_NOT_ACTIVE"⟩

/-- A login request: email and password, the input fields of spec 4.1. -/
structure LoginReq where
  email : String
  password : String
deriving DecidableEq, Repr

/-- Modelled from the spec: `serializers.LoginSerializer` validation
(file not in src/). Spec 4.1: the credentials must match an existing
user; on success the validated user is available, else a validation
error is raised. -/
def loginSerializerValidate (db : DB) (req : LoginReq) : Option User :=
  match getUserByEmail db.users req.email with
  | none => none
  | some u => if u.password == req.password then some u else none

/-- `LoginAPIView.post`: validate credentials, fetch the user by the
validated email, then branch on `is_active` and `verified_email` exactly
as lines 86-122 of views.py do. On the success path the user payload is
serialized before `last_login` is updated. -/
def loginPost (db : DB) (req : LoginReq) : HandlerResult :=
  match loginSerializerValidate db req with
  | none => validationErrorResult db
  | some user =>
    if user.is_active then
      if user.verified_email then
        let user_details := userSerializerData user
        let tokens := get_tokens_for_user user db.time
        let user2 : User := { user with last_login := db.time }
        ⟨⟨200, Body.loginBody tokens user_details⟩,
          { db with users := updateUser db.users user2 }, []⟩
      else
        ⟨⟨400, Body.errorBody ApiResponse.EMAIL_NOT_VERIFIED.detail
            ApiResponse.EMAIL_NOT_VERIFIED.code⟩,
          db, [Effect.verificationEmail user.id]⟩
    else
      ⟨⟨400, Body.errorBody ApiResponse.ACCOUNT_NOT_ACTIVE.detail
          ApiResponse.ACCOUNT_NOT_ACTIVE.code⟩,
        db, []⟩

/-- Modelled from the spec: validation of `TokenRefreshSerializer`
(third-party simplejwt, not in src/). Spec 4.3: validate the refresh
token (signature, purpose, expiry); on success mint a new access token,
else raise a `TokenError`. Returns the minted access token. -/
def tokenRefreshValidate (db : DB) (tok : SignedToken) : Option SignedToken :=
  if tokenSigValid tok && tok.purpose == "refresh" && db.time < tok.expiry
  then some (mkAccessToken tok.userId db.time)
  else none

/-- Modelled from the spec: the standardized invalid-token failure:
`InvalidToken` surfaces as a 401 authentication error (spec 7), the
database untouched. -/
def invalidTokenResult (db : DB) : HandlerResult :=
  ⟨⟨401, Body.errorBody "Token is invalid or expired" "token_not_valid"⟩,
    db, []⟩

/-- `TokenRefreshAPIView.post` (views.py lines 57-73): validate the
refresh token, re-raising a `TokenError` as the standardized
`InvalidToken`; on success look up the user of the minted access token,
set `last_login` to now and save, then return the validated data. -/
def refreshPost (db : DB) (tok : SignedToken) : HandlerResult :=
  match tokenRefreshValidate db tok with
  | none => invalidTokenResult db
  | some access =>
    match getUserById db.users access.userId with
    | none =>
      ⟨⟨401, Body.errorBody "User not found" "user_not_found"⟩, db, []⟩
    | some user =>
      let user2 : User := { user with last_login := db.time }
      ⟨⟨200, Body.refreshBody access⟩,
        { db with users := updateUser db.users user2 }, []⟩

/-- A registration request: the fields validated by the schema. -/
structure RegisterReq where
  email : String
  password : String
  first_name : String
  last_name : String
deriving DecidableEq, Repr

/-- Modelled from the spec: the password policy of the registration
schema (spec 4.2); the concrete rule is not in src/, a minimum length
stands in for it. -/
def passwordPolicyOk (p : String) : Bool :=
  8 ≤ p.length

/-- Modelled from the spec: `serializers.RegisterSerializer` validation
(file not in src/): schema checks, email uniqueness, password policy
(spec 4.2). -/
def registerSerializerValid (db : DB) (req : RegisterReq) : Bool :=
  (getUserByEmail db.users req.email).isNone && passwordPolicyOk req.password

/-- A fresh primary key for a created user. -/
def freshId (db : DB) : Nat :=
  (db.users.map User.id).foldr max 0 + 1

/-- Modelled from the spec: `RegisterSerializer.save()` (file not in
src/): creates the `User` record, `verified_email` false and `is_active`
true by default, `last_login` unset (spec 3 lifecycle). -/
def registerSave (db : DB) (req : RegisterReq) : User :=
  ⟨freshId db, req.email, req.password, true, false, 0⟩

/-- `RegisterAPIView.create` (views.py lines 129-141): validate, save the
new user (with its implicit profile, spec 4.2), send the verification
email, return the serialized user with status 201. -/
def registerPost (db : DB) (req : RegisterReq) : HandlerResult :=
  if registerSerializerValid db req then
    let user := registerSave db req
    let prof : Profile := ⟨user.id, req.first_name, req.last_name⟩
    ⟨⟨201, Body.userBody (userSerializerData user)⟩,
      { db with users := db.users ++ [user],
                profiles := db.profiles ++ [prof] },
      [Effect.verificationEmail user.id]⟩
  else validationErrorResult db

/-- `ForgetPasswordView.post` (views.py lines 207-235): look up the user
by email; when found, build the uidb64 and reset token and send the reset
email; a `User.DoesNotExist` is swallowed; either way the same generic
success body is returned and nothing is persisted. -/
def forgetPost (db : DB) (email : String) : HandlerResult :=
  match getUserByEmail db.users email with
  | some user =>
    let uidb64 := urlsafe_base64_encode user.id
    let token := make_token user db.time
    let name :=
      ((getProfileByUser db.profiles user.id).map Profile.get_fullname).getD ""
    ⟨⟨200, Body.detailBody "Password reset email sent if the email exists"⟩,
      db, [Effect.resetPasswordEmail user.email name uidb64 token]⟩
  | none =>
    ⟨⟨200, Body.detailBody "Password reset email sent if the email exists"⟩,
      db, []⟩

/-- A reset-token request: the base64-encoded user id and the token. -/
structure ResetTokenReq where
  uidb64 : Nat
  token : ResetToken
deriving DecidableEq, Repr

/-- Modelled from the spec:
`serializers.ResetPasswordTokenValidateSerializer` (file not in src/):
decode the user id, and check the token against that user with the
generator (spec 4.5 validate-token). -/
def resetTokenReqValid (db : DB) (req : ResetTokenReq) : Bool :=
  match getUserById db.users req.uidb64 with
  | none => false
  | some u => check_token u req.token db.time

/-- `ValidateResetPasswordTokenView.post` (views.py lines 247-252):
validate the serializer and answer with a plain message; nothing is
persisted. -/
def validateResetTokenPost (db : DB) (req : ResetTokenReq) : HandlerResult :=
  if resetTokenReqValid db req then
    ⟨⟨200, Body.messageBody "Token is valid"⟩, db, []⟩
  else validationErrorResult db

/-- A confirm-reset request: token request plus the new password. -/
structure ResetConfirmReq where
  uidb64 : Nat
  token : ResetToken
  newPassword : String
deriving DecidableEq, Repr

/-- Modelled from the spec: `serializers.ResetPasswordSerializer`
validation (file not in src/): token + new password are validated
(spec 4.5 confirm-reset); the validated user is available on success. -/
def resetConfirmValidate (db : DB) (req : ResetConfirmReq) : Option User :=
  match getUserById db.users req.uidb64 with
  | none => none
  | some u =>
    if check_token u req.token db.time && passwordPolicyOk req.newPassword
    then some u else none

/-- `ForgetResetPasswordView.post` (views.py lines 264-275): validate,
`serializer.save()` persists the new password, then `last_login` is set
to now and saved so the reset link is no longer valid. -/
def resetConfirmPost (db : DB) (req : ResetConfirmReq) : HandlerResult :=
  match resetConfirmValidate db req with
  | none => validationErrorResult db
  | some user =>
    let user1 : User := { user with password := req.newPassword }
    let user2 : User := { user1 with last_login := db.time }
    ⟨⟨200, Body.detailBody "Password reset successful."⟩,
      { db with users := updateUser db.users user2 }, []⟩

/-- A DRF permission class, as the views declare them. -/
inductive Permission
  | allowAny
  | isAuthenticated
  | superPerm
deriving DecidableEq, Repr

/-- The authenticated principal attached to a request, when any. -/
structure Principal where
  userId : Nat
  isSuper : Bool
deriving DecidableEq, Repr

/-- Whether one permission class grants a request. `AllowAny` always
grants; `IsAuthenticated` needs a principal; `SuperPerm` (modelled from
the spec: elevated permission, spec 4.4) needs a privileged principal. -/
def permissionGranted (p : Permission) (auth : Option Principal) : Bool :=
  match p with
  | .allowAny => true
  | .isAuthenticated => auth.isSome
  | .superPerm =>
    match auth with
    | some pr => pr.isSuper
    | none => false

/-- A request is admitted when every declared permission class grants. -/
def checkPermissions (perms : List Permission) (auth : Option Principal) :
    Bool :=
  perms.all (fun p => permissionGranted p auth)

/-- The framework gate in front of a handler: a request failing the
permission check is rejected with a 401 authentication error and the
handler never runs (spec 7 taxonomy). -/
def dispatch (perms : List Permission) (auth : Option Principal) (db : DB)
    (handler : DB → HandlerResult) : HandlerResult :=
  if checkPermissions perms auth then handler db
  else
    ⟨⟨401, Body.errorBody "Authentication credentials were not provided."
        "not_authenticated"⟩, db, []⟩

/-- `ForgetPasswordView.permission_classes` (views.py line 199). -/
def ForgetPasswordView.permission_classes : List Permission :=
  [.isAuthenticated]

/-- `ValidateResetPasswordTokenView.permission_classes` (line 239). -/
def ValidateResetPasswordTokenView.permission_classes : List Permission :=
  [.isAuthenticated]

/-- `ForgetResetPasswordView.permission_classes` (line 256). -/
def ForgetResetPasswordView.permission_classes : List Permission :=
  [.isAuthenticated]

/-- The forget-password endpoint: permission gate plus handler. -/
def forgetPasswordEndpoint (auth : Option Principal) (db : DB)
    (email : String) : HandlerResult :=
  dispatch ForgetPasswordView.permission_classes auth db
    (fun d => forgetPost d email)

/-- The validate-reset-token endpoint: permission gate plus handler. -/
def validateResetTokenEndpoint (auth : Option Principal) (db : DB)
    (req : ResetTokenReq) : HandlerResult :=
  dispatch ValidateResetPasswordTokenView.permission_classes auth db
    (fun d => validateResetTokenPost d req)

/-- The confirm-reset endpoint: permission gate plus handler. -/
def resetConfirmEndpoint (auth : Option Principal) (db : DB)
    (req : ResetConfirmReq) : HandlerResult :=
  dispatch ForgetResetPasswordView.permission_classes auth db
    (fun d => resetConfirmPost d req)

/-- `ProfileAPIView.http_method_names` (views.py line 293): only `get`
and `patch` are routed; anything else is 405. -/
def ProfileAPIView.http_method_names : List String :=
  ["get", "patch"]

/-- A partial-update request for a profile: absent fields unchanged. -/
structure ProfilePatchReq where
  first_name : Option String
  last_name : Option String
deriving DecidableEq, Repr

/-- Applying a partial update to a profile record. -/
def applyPatch (p : Profile) (r : ProfilePatchReq) : Profile :=
  { p with first_name := r.first_name.getD p.first_name,
           last_name := r.last_name.getD p.last_name }

/-- `ProfileAPIView.get_object` (views.py lines 295-296):
`get_object_or_404(Profile, user=self.request.user.id)` — the object is
always the caller's own profile, whatever id the URL carries. -/
def profileGetObject (db : DB) (callerId : Nat) : Option Profile :=
  getProfileByUser db.profiles callerId

/-- The profile endpoint (`ProfileAPIView`, views.py lines 289-299):
method routing per `http_method_names`, `IsAuthenticated` gate, then
retrieve or partial-update of `get_object`; the URL id (`lookup_field`)
is accepted but `get_object` overrides the lookup with the caller. -/
def profileEndpoint (auth : Option Principal) (db : DB) (method : String)
    (_urlId : Nat) (req : ProfilePatchReq) : HandlerResult :=
  if method ∈ ProfileAPIView.http_method_names then
    match auth with
    | none =>
      ⟨⟨401, Body.errorBody "Authentication credentials were not provided."
          "not_authenticated"⟩, db, []⟩
    | some pr =>
      match profileGetObject db pr.userId with
      | none => ⟨⟨404, Body.detailBody "Not found."⟩, db, []⟩
      | some p =>
        if method == "get" then
          ⟨⟨200, Body.profileBody (profileSerializerData p)⟩, db, []⟩
        else
          let p2 := applyPatch p req
          ⟨⟨200, Body.profileBody (profileSerializerData p2)⟩,
            { db with profiles := updateProfile db.profiles p2 }, []⟩
  else
    ⟨⟨405, Body.detailBody ("Method \x22" ++ method ++ "\x22 not allowed.")⟩,
      db, []⟩

/-! ## Helper lemmas -/

/-- A validated login yields exactly the user the email lookup finds. -/
theorem loginSerializerValidate_some (db : DB) (req : LoginReq) (u : User)
    (h : loginSerializerValidate db req = some u) :
    getUserByEmail db.users req.email = some u := by
  unfold loginSerializerValidate at h
  cases hf : getUserByEmail db.users req.email with
  | none => rw [hf] at h; exact absurd h (by simp)
  | some v =>
    rw [hf] at h
    have h2 :
        (if (v.password == req.password) = true then some v else none)
          = some u := h
    by_cases hp : (v.password == req.password) = true
    · rw [if_pos hp] at h2
      exact congrArg some (Option.some.inj h2)
    · rw [if_neg hp] at h2
      exact absurd h2 (by simp)

/-- The user a validated login returns is a stored record. -/
theorem loginSerializerValidate_mem (db : DB) (req : LoginReq) (u : User)
    (h : loginSerializerValidate db req = some u) : u ∈ db.users :=
  List.mem_of_find?_eq_some (loginSerializerValidate_some db req u h)

/-- A validated confirm-reset yields the user the id lookup finds. -/
theorem resetConfirmValidate_some (db : DB) (req : ResetConfirmReq)
    (u : User) (h : resetConfirmValidate db req = some u) :
    getUserById db.users req.uidb64 = some u := by
  unfold resetConfirmValidate at h
  cases hf : getUserById db.users req.uidb64 with
  | none => rw [hf] at h; exact absurd h (by simp)
  | some v =>
    rw [hf] at h
    have h2 :
        (if (check_token v req.token db.time
              && passwordPolicyOk req.newPassword) = true
          then some v else none) = some u := h
    by_cases hc :
        (check_token v req.token db.time && passwordPolicyOk req.newPassword)
          = true
    · rw [if_pos hc] at h2
      exact congrArg some (Option.some.inj h2)
    · rw [if_neg hc] at h2
      exact absurd h2 (by simp)

/-- A validated refresh mints exactly the fresh access token. -/
theorem tokenRefreshValidate_some (db : DB) (tok acc : SignedToken)
    (h : tokenRefreshValidate db tok = some acc) :
    acc = mkAccessToken tok.userId db.time := by
  unfold tokenRefreshValidate at h
  by_cases hc :
      (tokenSigValid tok && tok.purpose == "refresh" && db.time < tok.expiry)
        = true
  · rw [if_pos hc] at h
    exact (Option.some.inj h).symm
  · rw [if_neg hc] at h
    exact absurd h (by simp)

/-- Saving a user whose id is already stored makes the id lookup return
the saved record. -/
theorem getUserById_updateUser (users : List User) (u : User)
    (hmem : ∃ v, v ∈ users ∧ v.id = u.id) :
    getUserById (updateUser users u) u.id = some u := by
  induction users with
  | nil =>
    obtain ⟨v, hv, _⟩ := hmem
    cases hv
  | cons w ws ih =>
    obtain ⟨v, hv, hvi⟩ := hmem
    unfold updateUser getUserById
    by_cases hw : (w.id == u.id) = true
    · simp only [List.map_cons, List.find?_cons, hw, if_pos]
      simp
    · simp only [List.map_cons, List.find?_cons, hw, if_neg]
      have hwfalse : (w.id == u.id) = false := by
        simp only [Bool.not_eq_true] at hw
        exact hw
      simp only [Bool.false_eq_true, if_false, hwfalse]
      have hvws : v ∈ ws := by
        rcases List.mem_cons.mp hv with hvw | hvws
        · exfalso
          apply hw
          rw [hvw] at hvi
          exact beq_iff_eq.mpr hvi
        · exact hvws
      exact ih ⟨v, hvws, hvi⟩

/-- The id lookup only returns records with the looked-up id. -/
theorem getUserById_id (users : List User) (i : Nat) (u : User)
    (h : getUserById users i = some u) : u.id = i := by
  have hp := List.find?_some h
  exact beq_iff_eq.mp hp

/-- A reset token minted for a user no longer checks out against a record
whose last-login differs: the recomputed signing input changed. -/
theorem check_token_stale (u u2 : User) (ts now2 : Nat)
    (h : u2.last_login ≠ u.last_login) :
    check_token u2 (make_token u ts) now2 = false := by
  unfold check_token make_token
  have hsig :
      ((⟨u.id, u.password, u.last_login, ts⟩ : ResetSig)
        == (⟨u2.id, u2.password, u2.last_login, ts⟩ : ResetSig)) = false := by
    rw [beq_eq_false_iff_ne]
    intro hEq
    have := (ResetSig.mk.injEq _ _ _ _ _ _ _ _).mp hEq
    exact h this.2.2.1.symm
  simp only [hsig, Bool.false_and]

/-! ## Concrete fixtures used by witnesses and counterexamples -/

/-- A stored active, verified user. -/
def uEx : User := ⟨1, "ada@example.com", "password1", true, true, 10⟩

/-- The profile of `uEx`. -/
def pEx : Profile := ⟨1, "Ada", "Lovelace"⟩

/-- A stored active but unverified user. -/
def uUnverified : User := ⟨2, "bob@example.com", "password2", true, false, 7⟩

/-- A stored inactive, verified user. -/
def uInactive : User := ⟨3, "cam@example.com", "password3", false, true, 8⟩

/-- A stored user that is both inactive and unverified. -/
def uInactiveUnverified : User :=
  ⟨4, "dee@example.com", "password4", false, false, 9⟩

/-- A database holding the four fixture users at time 50. -/
def dbEx : DB :=
  ⟨[uEx, uUnverified, uInactive, uInactiveUnverified], [pEx], 50⟩

/-- A login request with the credentials of `uEx`. -/
def loginReqEx : LoginReq := ⟨"ada@example.com", "password1"⟩

/-- A login request with the credentials of `uUnverified`. -/
def loginReqUnverified : LoginReq := ⟨"bob@example.com", "password2"⟩

/-- A login request with the credentials of `uInactive`. -/
def loginReqInactive : LoginReq := ⟨"cam@example.com", "password3"⟩

/-- A login request with the credentials of `uInactiveUnverified`. -/
def loginReqBoth : LoginReq := ⟨"dee@example.com", "password4"⟩

/-- A well-formed refresh token for `uEx`, unexpired at time 50. -/
def refreshTokEx : SignedToken := mkRefreshToken 1 0

/-- A tampered refresh token: the signature is over another user id. -/
def badTokEx : SignedToken :=
  ⟨1, 99999, "refresh", signToken 2 99999 "refresh"⟩

/-- A reset token minted for `uEx` at time 40. -/
def resetTokEx : ResetToken := make_token uEx 40

/-- A confirm-reset request for `uEx` carrying `resetTokEx`. -/
def resetConfirmReqEx : ResetConfirmReq := ⟨1, resetTokEx, "newpassword9"⟩

/-! ## Claim theorems -/

/-- C1: a login request whose email resolves to an active user with
verified email, and whose credentials pass serializer validation, returns
a 200 response whose body holds the access+refresh token pair and the
serialized user payload, sends no email, and stores the current time as
that user's last-login. -/
theorem c1_login_success (db : DB) (req : LoginReq) (u : User)
    (hval : loginSerializerValidate db req = some u)
    (hact : u.is_active = true) (hver : u.verified_email = true) :
    (loginPost db req).resp =
      ⟨200, Body.loginBody (get_tokens_for_user u db.time)
        (userSerializerData u)⟩
    ∧ (loginPost db req).effects = []
    ∧ getUserById (loginPost db req).db.users u.id =
        some { u with last_login := db.time } := by
  have hmem : u ∈ db.users := loginSerializerValidate_mem db req u hval
  unfold loginPost
  rw [hval]
  simp only [hact, hver, if_true]
  refine ⟨trivial, trivial, ?_⟩
  exact getUserById_updateUser db.users _ ⟨u, hmem, rfl⟩

/-- Witness for C1 at the fixture database. -/
theorem c1_login_success_witness :
    (loginPost dbEx loginReqEx).resp =
      ⟨200, Body.loginBody (get_tokens_for_user uEx dbEx.time)
        (userSerializerData uEx)⟩
    ∧ (loginPost dbEx loginReqEx).effects = []
    ∧ getUserById (loginPost dbEx loginReqEx).db.users uEx.id =
        some { uEx with last_login := dbEx.time } :=
  c1_login_success dbEx loginReqEx uEx (by decide) (by decide) (by decide)

/-- C2: a completed successful login, token refresh, or password-reset
confirmation stores the current time as the user's last-login, and any
password-reset token minted from the user's earlier state (whose signing
input includes last-login) no longer checks out against the stored
record, provided the current time differs from the old last-login. -/
theorem c2_last_login_invalidation :
    (∀ (db : DB) (req : LoginReq) (u : User),
      loginSerializerValidate db req = some u → u.is_active = true →
      u.verified_email = true → db.time ≠ u.last_login →
      ∃ u2, getUserById (loginPost db req).db.users u.id = some u2 ∧
        u2.last_login = db.time ∧
        ∀ ts now2, check_token u2 (make_token u ts) now2 = false)
    ∧ (∀ (db : DB) (tok acc : SignedToken) (u : User),
      tokenRefreshValidate db tok = some acc →
      getUserById db.users acc.userId = some u → db.time ≠ u.last_login →
      ∃ u2, getUserById (refreshPost db tok).db.users u.id = some u2 ∧
        u2.last_login = db.time ∧
        ∀ ts now2, check_token u2 (make_token u ts) now2 = false)
    ∧ (∀ (db : DB) (req : ResetConfirmReq) (u : User),
      resetConfirmValidate db req = some u → db.time ≠ u.last_login →
      ∃ u2, getUserById (resetConfirmPost db req).db.users u.id = some u2 ∧
        u2.last_login = db.time ∧
        ∀ ts now2, check_token u2 (make_token u ts) now2 = false) := by
  refine ⟨?_, ?_, ?_⟩
  · intro db req u hval hact hver hne
    have hmem : u ∈ db.users := loginSerializerValidate_mem db req u hval
    refine ⟨{ u with last_login := db.time }, ?_, rfl, ?_⟩
    · unfold loginPost
      rw [hval]
      simp only [hact, hver, if_true]
      exact getUserById_updateUser db.users _ ⟨u, hmem, rfl⟩
    · intro ts now2
      exact check_token_stale u _ ts now2 hne
  · intro db tok acc u hvtok huser hne
    have hmem : u ∈ db.users := List.mem_of_find?_eq_some huser
    have hid : u.id = acc.userId := getUserById_id db.users acc.userId u huser
    refine ⟨{ u with last_login := db.time }, ?_, rfl, ?_⟩
    · unfold refreshPost
      simp only [hvtok, huser]
      exact getUserById_updateUser db.users _ ⟨u, hmem, rfl⟩
    · intro ts now2
      exact check_token_stale u _ ts now2 hne
  · intro db req u hval hne
    have hfind : getUserById db.users req.uidb64 = some u :=
      resetConfirmValidate_some db req u hval
    have hmem : u ∈ db.users := List.mem_of_find?_eq_some hfind
    refine ⟨{ u with password := req.newPassword, last_login := db.time },
      ?_, rfl, ?_⟩
    · unfold resetConfirmPost
      rw [hval]
      exact getUserById_updateUser db.users _ ⟨u, hmem, rfl⟩
    · intro ts now2
      exact check_token_stale u _ ts now2 hne

/-- Witness for C2: the three parts instantiated at the fixtures. -/
theorem c2_last_login_invalidation_witness :
    (∃ u2, getUserById (loginPost dbEx loginReqEx).db.users uEx.id = some u2
      ∧ u2.last_login = dbEx.time ∧
      ∀ ts now2, check_token u2 (make_token uEx ts) now2 = false)
    ∧ (∃ u2,
      getUserById (refreshPost dbEx refreshTokEx).db.users uEx.id = some u2
      ∧ u2.last_login = dbEx.time ∧
      ∀ ts now2, check_token u2 (make_token uEx ts) now2 = false)
    ∧ (∃ u2,
      getUserById (resetConfirmPost dbEx resetConfirmReqEx).db.users uEx.id
        = some u2
      ∧ u2.last_login = dbEx.time ∧
      ∀ ts now2, check_token u2 (make_token uEx ts) now2 = false) :=
  ⟨c2_last_login_invalidation.1 dbEx loginReqEx uEx (by decide) (by decide)
      (by decide) (by decide),
    c2_last_login_invalidation.2.1 dbEx refreshTokEx
      (mkAccessToken 1 dbEx.time) uEx (by decide) (by decide) (by decide),
    c2_last_login_invalidation.2.2 dbEx resetConfirmReqEx uEx (by decide)
      (by decide)⟩

/-- C3: the password-forget operation answers a run whose email matches a
stored user and a run whose email matches none with the same generic
success response; the failed lookup is swallowed, the response is a 200
success, and the no-match run changes nothing and sends nothing. -/
theorem c3_forget_no_leak (db1 db2 : DB) (e1 e2 : String)
    (h1 : (getUserByEmail db1.users e1).isSome = true)
    (h2 : getUserByEmail db2.users e2 = none) :
    (forgetPost db1 e1).resp = (forgetPost db2 e2).resp
    ∧ (forgetPost db2 e2).resp =
      ⟨200, Body.detailBody "Password reset email sent if the email exists"⟩
    ∧ (forgetPost db1 e1).db = db1
    ∧ (forgetPost db2 e2).db = db2
    ∧ (forgetPost db2 e2).effects = [] := by
  unfold forgetPost
  rw [h2]
  cases hf : getUserByEmail db1.users e1 with
  | none =>
    rw [hf] at h1
    exact absurd h1 (by simp)
  | some u => exact ⟨rfl, rfl, rfl, rfl, rfl⟩

/-- Witness for C3: an existing and a nonexistent email at the fixture. -/
theorem c3_forget_no_leak_witness :
    (forgetPost dbEx "ada@example.com").resp =
      (forgetPost dbEx "nobody@example.com").resp
    ∧ (forgetPost dbEx "nobody@example.com").resp =
      ⟨200, Body.detailBody "Password reset email sent if the email exists"⟩
    ∧ (forgetPost dbEx "ada@example.com").db = dbEx
    ∧ (forgetPost dbEx "nobody@example.com").db = dbEx
    ∧ (forgetPost dbEx "nobody@example.com").effects = [] :=
  c3_forget_no_leak dbEx dbEx "ada@example.com" "nobody@example.com"
    (by decide) (by decide)

/-- C4 counterexample: `uInactiveUnverified` has `verified_email` false
and its credentials validate, yet the login answer is the
`ACCOUNT_NOT_ACTIVE` error, not `EMAIL_NOT_VERIFIED`, and no verification
email is sent: the `is_active` branch is taken first. -/
theorem c4_counterexample :
    loginSerializerValidate dbEx loginReqBoth = some uInactiveUnverified
    ∧ uInactiveUnverified.verified_email = false
    ∧ (loginPost dbEx loginReqBoth).resp.body ≠
      Body.errorBody ApiResponse.EMAIL_NOT_VERIFIED.detail
        ApiResponse.EMAIL_NOT_VERIFIED.code
    ∧ (loginPost dbEx loginReqBoth).resp =
      ⟨400, Body.errorBody ApiResponse.ACCOUNT_NOT_ACTIVE.detail
        ApiResponse.ACCOUNT_NOT_ACTIVE.code⟩
    ∧ (loginPost dbEx loginReqBoth).effects = [] := by
  decide

/-- C4 amended: a login request whose credentials validate to an existing
**active** user with `verified_email` false gets a 400 response carrying
the `EMAIL_NOT_VERIFIED` code, the verification email is sent to that
user, and the database is unchanged. -/
theorem c4_email_not_verified (db : DB) (req : LoginReq) (u : User)
    (hval : loginSerializerValidate db req = some u)
    (hact : u.is_active = true) (hver : u.verified_email = false) :
    loginPost db req =
      ⟨⟨400, Body.errorBody ApiResponse.EMAIL_NOT_VERIFIED.detail
          ApiResponse.EMAIL_NOT_VERIFIED.code⟩,
        db, [Effect.verificationEmail u.id]⟩ := by
  unfold loginPost
  rw [hval]
  simp only [hact, hver, if_true, Bool.false_eq_true, if_false]

/-- Witness for the amended C4 at the fixture database. -/
theorem c4_email_not_verified_witness :
    loginPost dbEx loginReqUnverified =
      ⟨⟨400, Body.errorBody ApiResponse.EMAIL_NOT_VERIFIED.detail
          ApiResponse.EMAIL_NOT_VERIFIED.code⟩,
        dbEx, [Effect.verificationEmail uUnverified.id]⟩ :=
  c4_email_not_verified dbEx loginReqUnverified uUnverified (by decide)
    (by decide) (by decide)

/-- C5: a login request whose credentials validate to an existing user
with `is_active` false gets a 400 response carrying the
`ACCOUNT_NOT_ACTIVE` code; nothing is stored or sent. -/
theorem c5_account_not_active (db : DB) (req : LoginReq) (u : User)
    (hval : loginSerializerValidate db req = some u)
    (hact : u.is_active = false) :
    loginPost db req =
      ⟨⟨400, Body.errorBody ApiResponse.ACCOUNT_NOT_ACTIVE.detail
          ApiResponse.ACCOUNT_NOT_ACTIVE.code⟩,
        db, []⟩ := by
  unfold loginPost
  rw [hval]
  simp only [hact, Bool.false_eq_true, if_false]

/-- Witness for C5 at the fixture database. -/
theorem c5_account_not_active_witness :
    loginPost dbEx loginReqInactive =
      ⟨⟨400, Body.errorBody ApiResponse.ACCOUNT_NOT_ACTIVE.detail
          ApiResponse.ACCOUNT_NOT_ACTIVE.code⟩,
        dbEx, []⟩ :=
  c5_account_not_active dbEx loginReqInactive uInactive (by decide)
    (by decide)

/-- C6: a token-refresh request whose refresh token fails validation is
answered with the standardized invalid-token 401 authentication error,
the database (in particular every last-login) is unchanged, and nothing
is sent. -/
theorem c6_refresh_invalid_token (db : DB) (tok : SignedToken)
    (h : tokenRefreshValidate db tok = none) :
    refreshPost db tok =
      ⟨⟨401, Body.errorBody "Token is invalid or expired" "token_not_valid"⟩,
        db, []⟩ := by
  unfold refreshPost
  rw [h]
  rfl

/-- Witness for C6 at a tampered token. -/
theorem c6_refresh_invalid_token_witness :
    refreshPost dbEx badTokEx =
      ⟨⟨401, Body.errorBody "Token is invalid or expired" "token_not_valid"⟩,
        dbEx, []⟩ :=
  c6_refresh_invalid_token dbEx badTokEx (by decide)

/-- C7: a registration request that passes schema validation (email
uniqueness included) appends exactly one new `User` record (and its
profile), sends the verification email to that user, and answers with
the created user's serialized payload and status 201. -/
theorem c7_register_success (db : DB) (req : RegisterReq)
    (h : registerSerializerValid db req = true) :
    registerPost db req =
      ⟨⟨201, Body.userBody (userSerializerData (registerSave db req))⟩,
        { db with users := db.users ++ [registerSave db req],
                  profiles := db.profiles ++
                    [⟨(registerSave db req).id, req.first_name,
                      req.last_name⟩] },
        [Effect.verificationEmail (registerSave db req).id]⟩ := by
  unfold registerPost
  simp only [h, if_true]

/-- Witness for C7: registering a fresh email at the fixture database. -/
theorem c7_register_success_witness :
    registerPost dbEx ⟨"eve@example.com", "password55", "Eve", "Jones"⟩ =
      ⟨⟨201, Body.userBody (userSerializerData
          (registerSave dbEx
            ⟨"eve@example.com", "password55", "Eve", "Jones"⟩))⟩,
        { dbEx with
            users := dbEx.users ++
              [registerSave dbEx
                ⟨"eve@example.com", "password55", "Eve", "Jones"⟩],
            profiles := dbEx.profiles ++
              [⟨(registerSave dbEx
                  ⟨"eve@example.com", "password55", "Eve", "Jones"⟩).id,
                "Eve", "Jones"⟩] },
        [Effect.verificationEmail
          (registerSave dbEx
            ⟨"eve@example.com", "password55", "Eve", "Jones"⟩).id]⟩ :=
  c7_register_success dbEx ⟨"eve@example.com", "password55", "Eve", "Jones"⟩
    (by decide)

/-- C8: the profile endpoint routes only `get` and `patch` (a `put`
full-replace is answered 405 with nothing changed); for an authenticated
caller, `get` returns the profile selected by the caller's id — the
caller's own — and `patch` partially updates that same profile. -/
theorem c8_profile_own_only :
    ProfileAPIView.http_method_names = ["get", "patch"]
    ∧ (∀ (auth : Option Principal) (db : DB) (urlId : Nat)
        (req : ProfilePatchReq),
      (profileEndpoint auth db "put" urlId req).resp.status = 405
      ∧ (profileEndpoint auth db "put" urlId req).db = db
      ∧ (profileEndpoint auth db "put" urlId req).effects = [])
    ∧ (∀ (pr : Principal) (db : DB) (urlId : Nat) (req : ProfilePatchReq)
        (p : Profile), profileGetObject db pr.userId = some p →
      p.userId = pr.userId
      ∧ profileEndpoint (some pr) db "get" urlId req =
        ⟨⟨200, Body.profileBody (profileSerializerData p)⟩, db, []⟩)
    ∧ (∀ (pr : Principal) (db : DB) (urlId : Nat) (req : ProfilePatchReq)
        (p : Profile), profileGetObject db pr.userId = some p →
      (applyPatch p req).userId = pr.userId
      ∧ profileEndpoint (some pr) db "patch" urlId req =
        ⟨⟨200, Body.profileBody (profileSerializerData (applyPatch p req))⟩,
          { db with profiles := updateProfile db.profiles (applyPatch p req) },
          []⟩) := by
  refine ⟨rfl, ?_, ?_, ?_⟩
  · intro auth db urlId req
    exact ⟨rfl, rfl, rfl⟩
  · intro pr db urlId req p hp
    have hid : p.userId = pr.userId := by
      have := List.find?_some hp
      exact beq_iff_eq.mp this
    refine ⟨hid, ?_⟩
    unfold profileEndpoint
    rw [if_pos (by decide)]
    simp only [hp]
    rfl
  · intro pr db urlId req p hp
    have hid : p.userId = pr.userId := by
      have := List.find?_some hp
      exact beq_iff_eq.mp this
    have hid2 : (applyPatch p req).userId = pr.userId := hid
    refine ⟨hid2, ?_⟩
    unfold profileEndpoint
    rw [if_pos (by decide)]
    simp only [hp]
    rfl

/-- Witness for C8: the three conditional parts at the fixture. -/
theorem c8_profile_own_only_witness :
    ((profileEndpoint (some ⟨1, false⟩) dbEx "put" 9 ⟨none, none⟩).resp.status
        = 405
      ∧ (profileEndpoint (some ⟨1, false⟩) dbEx "put" 9 ⟨none, none⟩).db
        = dbEx
      ∧ (profileEndpoint (some ⟨1, false⟩) dbEx "put" 9 ⟨none, none⟩).effects
        = [])
    ∧ (pEx.userId = (⟨1, false⟩ : Principal).userId
      ∧ profileEndpoint (some ⟨1, false⟩) dbEx "get" 9 ⟨none, none⟩ =
        ⟨⟨200, Body.profileBody (profileSerializerData pEx)⟩, dbEx, []⟩)
    ∧ ((applyPatch pEx ⟨some "Grace", none⟩).userId
        = (⟨1, false⟩ : Principal).userId
      ∧ profileEndpoint (some ⟨1, false⟩) dbEx "patch" 9 ⟨some "Grace", none⟩
        = ⟨⟨200, Body.profileBody
              (profileSerializerData (applyPatch pEx ⟨some "Grace", none⟩))⟩,
            { dbEx with profiles :=
              updateProfile dbEx.profiles (applyPatch pEx ⟨some "Grace", none⟩) },
            []⟩) :=
  ⟨c8_profile_own_only.2.1 (some ⟨1, false⟩) dbEx 9 ⟨none, none⟩,
    c8_profile_own_only.2.2.1 ⟨1, false⟩ dbEx 9 ⟨none, none⟩ pEx (by decide),
    c8_profile_own_only.2.2.2 ⟨1, false⟩ dbEx 9 ⟨some "Grace", none⟩ pEx
      (by decide)⟩

/-- C9: the three password-reset endpoints all declare `IsAuthenticated`;
a request with no authenticated principal is rejected by each with a 401
authentication error, the database unchanged and no email sent, so no
lookup, token generation, email dispatch or password change happens. -/
theorem c9_reset_flow_requires_auth (db : DB) (email : String)
    (req1 : ResetTokenReq) (req2 : ResetConfirmReq) :
    ForgetPasswordView.permission_classes = [Permission.isAuthenticated]
    ∧ ValidateResetPasswordTokenView.permission_classes
      = [Permission.isAuthenticated]
    ∧ ForgetResetPasswordView.permission_classes
      = [Permission.isAuthenticated]
    ∧ forgetPasswordEndpoint none db email =
      ⟨⟨401, Body.errorBody "Authentication credentials were not provided."
          "not_authenticated"⟩, db, []⟩
    ∧ validateResetTokenEndpoint none db req1 =
      ⟨⟨401, Body.errorBody "Authentication credentials were not provided."
          "not_authenticated"⟩, db, []⟩
    ∧ resetConfirmEndpoint none db req2 =
      ⟨⟨401, Body.errorBody "Authentication credentials were not provided."
          "not_authenticated"⟩, db, []⟩ :=
  ⟨rfl, rfl, rfl, rfl, rfl, rfl⟩

/-- C10: a login request whose credentials validate to an existing user
that is both inactive and unverified is answered with the
`ACCOUNT_NOT_ACTIVE` error — the `is_active` check precedes the
`verified_email` check — and no verification email is sent. -/
theorem c10_inactive_wins (db : DB) (req : LoginReq) (u : User)
    (hval : loginSerializerValidate db req = some u)
    (hact : u.is_active = false) (hver : u.verified_email = false) :
    loginPost db req =
      ⟨⟨400, Body.errorBody ApiResponse.ACCOUNT_NOT_ACTIVE.detail
          ApiResponse.ACCOUNT_NOT_ACTIVE.code⟩,
        db, []⟩
    ∧ Effect.verificationEmail u.id ∉ (loginPost db req).effects := by
  have hmain : loginPost db req =
      ⟨⟨400, Body.errorBody ApiResponse.ACCOUNT_NOT_ACTIVE.detail
          ApiResponse.ACCOUNT_NOT_ACTIVE.code⟩,
        db, []⟩ := by
    unfold loginPost
    rw [hval]
    simp only [hact, Bool.false_eq_true, if_false]
  refine ⟨hmain, ?_⟩
  rw [hmain]
  simp

/-- Witness for C10 at the fixture database. -/
theorem c10_inactive_wins_witness :
    loginPost dbEx loginReqBoth =
      ⟨⟨400, Body.errorBody ApiResponse.ACCOUNT_NOT_ACTIVE.detail
          ApiResponse.ACCOUNT_NOT_ACTIVE.code⟩,
        dbEx, []⟩
    ∧ Effect.verificationEmail uInactiveUnverified.id ∉
      (loginPost dbEx loginReqBoth).effects :=
  c10_inactive_wins dbEx loginReqBoth uInactiveUnverified (by decide)
    (by decide) (by decide)

end UsersApi
